import Mathlib

/-!
Verification of the train-delay collector (`scraper.py`, class `TrainDataCollector`)
against its natural-language specification.

The embedding below translates the route-driven collector from the source:
`generate_journey_identifier`, `process_vehicle_stops`, `fetch_vehicle_data`
and the nested loops of `collect_data`, together with the data they act on.

Modelling conventions, stated once here:
* Python `str` values that can reach `str.encode()` (UTF-8) or the UTF-8 CSV
  sink are modelled by `PyStr`: a carrier `String` plus a flag `enc` saying
  whether encoding the value to UTF-8 succeeds.  `enc = false` models a
  string holding lone surrogates (JSON escapes such as `"\ud800"` produce
  such strings); encoding them raises `UnicodeEncodeError`, which the
  source catches in its blanket `except` handlers.
* Epoch timestamps and delays are `Option Int`: `none` models an absent
  JSON field, so that Python's `dict.get(key, default)` becomes `Option.getD`.
* Python floor division `//` is `Int.fdiv`.
* `datetime` values are represented by their epoch timestamp (the code
  formats them with `strftime` for display only).
* The wall-clock instants captured by `datetime.now()` are passed in as a
  parameter `now`.  (The source takes two snapshots, one in `collect_data`
  and one in `process_vehicle_stops`; no claim distinguishes them, and the
  model threads a single value.)
-/

/-- A Python string as it matters to this program: its text plus whether
UTF-8 encoding of it succeeds (`False` models lone surrogates). -/
structure PyStr where
  val : String
  enc : Bool
  deriving DecidableEq, Repr

/-- One element of the `stops.stop` list of a vehicle response.
Fields mirror the keys read by the source; `none` is an absent key. -/
structure Stop where
  station : PyStr
  scheduledArrivalTime : Option Int := none
  scheduledDepartureTime : Option Int := none
  arrivalDelay : Option Int := none
  departureDelay : Option Int := none
  platform : Option PyStr := none
  canceled : Option String := none
  arrivalCanceled : Option String := none
  departureCanceled : Option String := none
  deriving DecidableEq, Repr

/-- The `vehicleinfo` sub-object: `name` and `type` as read by the source
(`.get('name', '')` / `.get('type', '')`; an absent key is the empty string). -/
structure VehicleInfo where
  name : PyStr
  vtype : PyStr
  deriving DecidableEq, Repr

/-- A parsed vehicle response.  `isDict` models `isinstance(vehicle_data, dict)`
(and, when false, the `AttributeError` that `.get` raises on a non-dict);
`truthy` models Python truthiness of the whole value (`if vehicle_data:`);
`stopsIsDict` models `isinstance(stops_data, dict)`. -/
structure VehicleData where
  isDict : Bool
  truthy : Bool
  stopsIsDict : Bool
  vehicleinfo : VehicleInfo
  stop : List Stop
  deriving DecidableEq, Repr

/-- One CSV row as assembled in `process_vehicle_stops` (lines 275-292).
The wall-clock display columns `date` and `captured_at` are pure
`strftime` output of the current instant and are not modelled; time
columns hold the epoch value behind the formatted text, `none` for the
empty string the code writes when the scheduled value is falsy. -/
structure Row where
  route_id : String
  trip_id : String
  train_id : PyStr
  train_type : PyStr
  station_name : PyStr
  station_position : String
  scheduled_arrival : Option Int
  actual_arrival : Option Int
  arrival_delay : Int
  scheduled_departure : Option Int
  actual_departure : Option Int
  departure_delay : Int
  platform : PyStr
  is_cancelled : Nat
  deriving DecidableEq, Repr

/-! ### Decimal rendering of integers

`generate_journey_identifier` interpolates `scheduled_first_departure`
(a Python `int`) into an f-string, i.e. applies `str()`.  `natStrAux` is
Python's decimal rendering of a natural number, written with an explicit
fuel argument so that it is structurally recursive (the fuel `n + 1`
always suffices because the recursion divides by ten). -/

/-- The character for a decimal digit `d < 10` (`'0'` … `'9'`). -/
def digitChar (d : Nat) : Char := Char.ofNat (48 + d)

/-- Decimal digits of `n`, most significant first; `fuel` bounds recursion depth. -/
def natStrAux : Nat → Nat → List Char
  | 0, _ => []
  | fuel + 1, n =>
    if n < 10 then [digitChar n]
    else natStrAux fuel (n / 10) ++ [digitChar (n % 10)]

/-- Python `str()` of a natural number. -/
def natStr (n : Nat) : String := String.mk (natStrAux (n + 1) n)

/-- Python `str()` of an `int`: decimal digits, with a leading minus sign
for negative values. -/
def intStr (i : Int) : String :=
  if i < 0 then String.mk ('-' :: natStrAux (i.natAbs + 1) i.natAbs)
  else natStr i.toNat

/-- Reading decimal digits back: left fold accumulating base-ten value. -/
def parseDigits (l : List Char) : Nat :=
  l.foldl (fun a c => 10 * a + (c.toNat - 48)) 0

theorem digitChar_toNat {d : Nat} (h : d < 10) : (digitChar d).toNat = 48 + d := by
  interval_cases d <;> decide

theorem parseDigits_natStrAux : ∀ fuel n, n < fuel → parseDigits (natStrAux fuel n) = n := by
  intro fuel
  induction fuel with
  | zero => intro n h; omega
  | succ f ih =>
    intro n h
    by_cases h10 : n < 10
    · simp only [natStrAux, if_pos h10]
      simp [parseDigits, digitChar_toNat h10]
    · have hrec : n / 10 < f := by omega
      simp only [natStrAux, if_neg h10]
      have hmod : n % 10 < 10 := by omega
      simp only [parseDigits, List.foldl_append] at *
      have := ih (n / 10) hrec
      simp only [parseDigits] at this
      simp [this, List.foldl, digitChar_toNat hmod]
      omega

theorem natStrAux_digits : ∀ fuel n c, c ∈ natStrAux fuel n → 48 ≤ c.toNat ∧ c.toNat ≤ 57 := by
  intro fuel
  induction fuel with
  | zero => intro n c h; simp [natStrAux] at h
  | succ f ih =>
    intro n c h
    by_cases h10 : n < 10
    · simp only [natStrAux, if_pos h10, List.mem_singleton] at h
      subst h
      rw [digitChar_toNat h10]
      omega
    · simp only [natStrAux, if_neg h10, List.mem_append, List.mem_singleton] at h
      rcases h with h | h
      · exact ih _ _ h
      · subst h
        have hmod : n % 10 < 10 := by omega
        rw [digitChar_toNat hmod]
        omega

theorem natStrAux_ne_nil (fuel n : Nat) (h : n < fuel) : natStrAux fuel n ≠ [] := by
  cases fuel with
  | zero => omega
  | succ f =>
    by_cases h10 : n < 10
    · simp [natStrAux, if_pos h10]
    · simp [natStrAux, if_neg h10]

theorem natStr_inj {a b : Nat} (h : natStr a = natStr b) : a = b := by
  have hdata : natStrAux (a + 1) a = natStrAux (b + 1) b := congrArg String.data h
  have ha := parseDigits_natStrAux (a + 1) a (by omega)
  have hb := parseDigits_natStrAux (b + 1) b (by omega)
  rw [hdata] at ha
  omega

theorem intStr_inj {a b : Int} (h : intStr a = intStr b) : a = b := by
  unfold intStr at h
  by_cases hA : a < 0 <;> by_cases hB : b < 0
  · rw [if_pos hA, if_pos hB] at h
    have hdata : '-' :: natStrAux (a.natAbs + 1) a.natAbs
        = '-' :: natStrAux (b.natAbs + 1) b.natAbs := congrArg String.data h
    have hlist := List.tail_eq_of_cons_eq hdata
    have ha := parseDigits_natStrAux (a.natAbs + 1) a.natAbs (by omega)
    have hb := parseDigits_natStrAux (b.natAbs + 1) b.natAbs (by omega)
    rw [hlist] at ha
    omega
  · exfalso
    rw [if_pos hA, if_neg hB] at h
    have hdata : '-' :: natStrAux (a.natAbs + 1) a.natAbs
        = natStrAux (b.toNat + 1) b.toNat := congrArg String.data h
    have hmem : '-' ∈ natStrAux (b.toNat + 1) b.toNat := by
      rw [← hdata]; exact List.mem_cons_self _ _
    have := natStrAux_digits (b.toNat + 1) b.toNat '-' hmem
    simp at this
  · exfalso
    rw [if_neg hA, if_pos hB] at h
    have hdata : natStrAux (a.toNat + 1) a.toNat
        = '-' :: natStrAux (b.natAbs + 1) b.natAbs := congrArg String.data h
    have hmem : '-' ∈ natStrAux (a.toNat + 1) a.toNat := by
      rw [hdata]; exact List.mem_cons_self _ _
    have := natStrAux_digits (a.toNat + 1) a.toNat '-' hmem
    simp at this
  · rw [if_neg hA, if_neg hB] at h
    have := natStr_inj h
    omega

/-! ### Executable string replace and split

Lean's `String.replace` and `String.splitOn` are defined by well-founded
recursion on byte positions, which the kernel cannot evaluate.  The two
functions below implement the same Python semantics (`str.replace` replaces
all non-overlapping occurrences left to right; `str.split(sep)` splits on
non-overlapping occurrences) by structural recursion on a character-count
fuel, so that concrete runs reduce inside the kernel.  The fuel `length`
always suffices: each step consumes at least one character (the patterns
used in this development, `"BE.NMBS."` and `"--"`, are nonempty). -/

/-- All-occurrences replacement on character lists, Python `str.replace`. -/
def replaceChars (pat rep : List Char) : Nat → List Char → List Char
  | _, [] => []
  | 0, s => s
  | fuel + 1, c :: rest =>
    if pat.isPrefixOf (c :: rest) then
      rep ++ replaceChars pat rep fuel (List.drop pat.length (c :: rest))
    else c :: replaceChars pat rep fuel rest

/-- Python `s.replace(pat, rep)`. -/
def pyReplace (s pat rep : String) : String :=
  String.mk (replaceChars pat.data rep.data s.data.length s.data)

/-- Splitting on a separator, accumulator-style; Python `str.split(sep)`. -/
def splitAux (sep : List Char) : Nat → List Char → List Char → List (List Char)
  | _, acc, [] => [acc.reverse]
  | 0, acc, s => [acc.reverse ++ s]
  | fuel + 1, acc, c :: rest =>
    if sep.isPrefixOf (c :: rest) then
      acc.reverse :: splitAux sep fuel [] (List.drop sep.length (c :: rest))
    else splitAux sep fuel (c :: acc) rest

/-- Python `s.split(sep)`. -/
def pySplit (s sep : String) : List String :=
  (splitAux sep.data s.data.length [] s.data).map String.mk

/-! ### Journey identifier (`generate_journey_identifier`, lines 42-64) -/

/-- The deterministic journey string built on line 61 of the source:
`f"{train_id}_{train_type}_{first_stop}_{last_stop}_{scheduled_first_departure}"`.
The source then applies `hashlib.md5(journey_string.encode()).hexdigest()`;
since the MD5 hex digest is a fixed deterministic function of this string, the
identifier is modelled by the journey string itself (equality of identifiers in
the code corresponds to equality of journey strings, and distinct journey
strings give distinct digests absent MD5 collisions, which we treat as such). -/
def journeyString (train_id train_type first_stop last_stop : String) (dep : Int) : String :=
  train_id ++ "_" ++ train_type ++ "_" ++ first_stop ++ "_" ++ last_stop ++ "_" ++ intStr dep

/-- Translation of `generate_journey_identifier` (lines 42-68).  Returns
`none` exactly where the Python returns `None`: non-dict `vehicle_data`
(`.get` raises, caught), non-dict `stops`, empty stop list, or the
`UnicodeEncodeError` from `journey_string.encode()` when a component string
is unencodable. -/
def generate_journey_identifier (vd : VehicleData) : Option String :=
  if !vd.isDict then none
  else if !vd.stopsIsDict then none
  else
    match vd.stop with
    | [] => none
    | s0 :: rest =>
      let last := (s0 :: rest).getLast (List.cons_ne_nil s0 rest)
      let train_id := pyReplace vd.vehicleinfo.name.val ("BE.NMBS.") ("")
      let dep := s0.scheduledDepartureTime.getD 0
      if vd.vehicleinfo.name.enc && vd.vehicleinfo.vtype.enc
          && s0.station.enc && last.station.enc then
        some (journeyString train_id vd.vehicleinfo.vtype.val s0.station.val last.station.val dep)
      else none

/-- The five inputs of the journey identifier, extracted under the same
guards as `generate_journey_identifier`: stripped train id, train type,
first station, last station, first scheduled departure. -/
def journeyKey (vd : VehicleData) : Option (String × String × String × String × Int) :=
  if !vd.isDict then none
  else if !vd.stopsIsDict then none
  else
    match vd.stop with
    | [] => none
    | s0 :: rest =>
      let last := (s0 :: rest).getLast (List.cons_ne_nil s0 rest)
      let train_id := pyReplace vd.vehicleinfo.name.val ("BE.NMBS.") ("")
      let dep := s0.scheduledDepartureTime.getD 0
      if vd.vehicleinfo.name.enc && vd.vehicleinfo.vtype.enc
          && s0.station.enc && last.station.enc then
        some (train_id, vd.vehicleinfo.vtype.val, s0.station.val, last.station.val, dep)
      else none

theorem gen_eq_journeyKey (vd : VehicleData) :
    generate_journey_identifier vd
      = (journeyKey vd).map (fun k => journeyString k.1 k.2.1 k.2.2.1 k.2.2.2.1 k.2.2.2.2) := by
  unfold generate_journey_identifier journeyKey
  by_cases h1 : vd.isDict <;> simp [h1]
  by_cases h2 : vd.stopsIsDict <;> simp [h2]
  match h : vd.stop with
  | [] => simp
  | s0 :: rest =>
    simp only []
    split <;> simp

/-! ### Stop processing (`process_vehicle_stops`, lines 215-303) -/

/-- Position label for the stop at index `i` of a list of length `n`
(lines 254-261; note the `elif`: index 0 wins over index `n - 1`). -/
def posOf (i n : Nat) : String :=
  if i = 0 then "First"
  else if i = n - 1 then "Last"
  else "Intermediate"

/-- The CSV row assembled for one stop (lines 263-292). -/
def mkRow (routeId tripId : String) (train_id train_type : PyStr)
    (i n : Nat) (s : Stop) : Row :=
  let scheduled_arrival := s.scheduledArrivalTime.getD 0
  let scheduled_departure := s.scheduledDepartureTime.getD 0
  let arrival_delay := s.arrivalDelay.getD 0
  let departure_delay := s.departureDelay.getD 0
  { route_id := routeId
    trip_id := tripId
    train_id := train_id
    train_type := train_type
    station_name := s.station
    station_position := posOf i n
    scheduled_arrival := if scheduled_arrival ≠ 0 then some scheduled_arrival else none
    actual_arrival := if scheduled_arrival ≠ 0 then some (scheduled_arrival + arrival_delay) else none
    arrival_delay := Int.fdiv arrival_delay 60
    scheduled_departure := if scheduled_departure ≠ 0 then some scheduled_departure else none
    actual_departure :=
      if scheduled_departure ≠ 0 then some (scheduled_departure + departure_delay) else none
    departure_delay := Int.fdiv departure_delay 60
    platform := s.platform.getD ⟨"unknown", true⟩
    is_cancelled := if s.canceled.getD ("0") = "1" then 1 else 0 }

/-- Whether `csv_writer.writerow` succeeds for this row: the output file is
opened with UTF-8 encoding, so writing fails iff some written string is
unencodable.  (`route_id` and `trip_id` come from the GTFS tables and are
plain `String`s, hence encodable.) -/
def rowEncodable (r : Row) : Bool :=
  r.train_id.enc && r.train_type.enc && r.station_name.enc && r.platform.enc

/-- The `past_stops` filter (lines 249-252): keep a stop iff
`int(stop.get('scheduledDepartureTime', current_time + 1)) < current_time`. -/
def pastStops (vd : VehicleData) (now : Int) : List Stop :=
  vd.stop.filter (fun s => s.scheduledDepartureTime.getD (now + 1) < now)

/-- The row-writing loop (lines 254-296).  Rows are flushed one at a time;
if a `writerow` raises (unencodable string), the rows already written stay
in the file and the function returns `False` — hence the `Bool × List Row`
result carrying the rows actually written. -/
def writeRows (routeId tripId : String) (train_id train_type : PyStr) (n : Nat) :
    Nat → List Stop → Bool × List Row
  | _, [] => (true, [])
  | i, s :: rest =>
    let r := mkRow routeId tripId train_id train_type i n s
    if rowEncodable r then
      match writeRows routeId tripId train_id train_type n (i + 1) rest with
      | (ok, rs) => (ok, r :: rs)
    else (false, [])

/-- Translation of `process_vehicle_stops` (lines 215-303): guard checks,
`past_stops` filter, then one row per past stop.  Returns the source's
`bool` together with the rows written to the CSV during the call. -/
def process_vehicle_stops (routeId tripId : String) (vd : VehicleData) (now : Int) :
    Bool × List Row :=
  if !vd.isDict then (false, [])
  else if !vd.stopsIsDict then (false, [])
  else if vd.stop.isEmpty then (false, [])
  else
    let train_id : PyStr :=
      { val := pyReplace vd.vehicleinfo.name.val ("BE.NMBS.") (""), enc := vd.vehicleinfo.name.enc }
    let past := pastStops vd now
    writeRows routeId tripId train_id vd.vehicleinfo.vtype past.length 0 past

/-! ### Vehicle fetcher (`fetch_vehicle_data`, lines 155-180) -/

/-- The body of an HTTP response as `response.json()` sees it: either
undecodable (raising `requests.exceptions.JSONDecodeError`, a
`RequestException` subclass) or a parsed vehicle value. -/
inductive JsonBody where
  | malformed : JsonBody
  | valid : VehicleData → JsonBody
  deriving DecidableEq, Repr

/-- An HTTP response: status code plus body. -/
structure HttpResponse where
  status : Nat
  body : JsonBody
  deriving DecidableEq, Repr

/-- The outcome of the `requests.get` call for one vehicle: a network-level
failure (`ConnectionError`, timeout, … — all `RequestException`s) or a
response. -/
inductive FetchOutcome where
  | networkError : FetchOutcome
  | response : HttpResponse → FetchOutcome
  deriving DecidableEq, Repr

/-- Translation of `fetch_vehicle_data` (lines 155-180): network errors,
`raise_for_status` on a 4xx/5xx status, and JSON decoding errors are all
`requests.exceptions.RequestException`s, caught by the handler on line 178,
which returns `None`. -/
def fetch_vehicle_data (o : FetchOutcome) : Option VehicleData :=
  match o with
  | .networkError => none
  | .response r =>
    if 400 ≤ r.status then none
    else
      match r.body with
      | .malformed => none
      | .valid vd => some vd

/-! ### The connection loop of `collect_data` (lines 333-358) -/

/-- One element of the `connection` list of a connections response,
together with the outcome the network produces when its vehicle is
fetched.  `time` is `conn['departure'].get('time', 0)`, `vehicle` is
`conn['departure'].get('vehicle')`. -/
structure Conn where
  time : Option Int
  vehicle : Option String
  fetch : FetchOutcome
  deriving DecidableEq, Repr

/-- The mutable state of one `collect_data` run: the in-memory set of
journey identifiers (which can contain `none`, since `journey_id` may be
`None`), the rows appended to the CSV so far, and the two counters. -/
structure CState where
  processed : List (Option String)
  written : List Row
  totalProcessed : Nat
  dupSkipped : Nat
  deriving DecidableEq, Repr

/-- The body of `for conn in data.get('connection', [])` (lines 333-358):
skip future departures, skip falsy vehicle ids, fetch, check truthiness,
compute the journey identifier, skip counted duplicates, process the
stops, and record the identifier only when processing returned `True`
(rows written before a mid-loop failure stay in the file). -/
def connStep (now : Int) (routeId tripId : String) (st : CState) (c : Conn) : CState :=
  if c.time.getD 0 ≥ now then st
  else if c.vehicle.getD ("") = "" then st
  else
    match fetch_vehicle_data c.fetch with
    | none => st
    | some vd =>
      if vd.truthy then
        let jid := generate_journey_identifier vd
        if jid ∈ st.processed then
          { st with dupSkipped := st.dupSkipped + 1 }
        else
          match process_vehicle_stops routeId tripId vd now with
          | (true, rows) =>
            { st with
              processed := jid :: st.processed
              written := st.written ++ rows
              totalProcessed := st.totalProcessed + 1 }
          | (false, rows) => { st with written := st.written ++ rows }
      else st

/-- Folding `connStep` over a connections list. -/
def processConns (now : Int) (routeId tripId : String) (st : CState) (cs : List Conn) : CState :=
  cs.foldl (connStep now routeId tripId) st

/-! ### Routes, trips and the outer loops of `collect_data` (lines 305-366) -/

/-- A row of the GTFS `routes.txt` table, restricted to the columns read. -/
structure Route where
  route_id : String
  route_type : Nat
  route_long_name : String
  deriving DecidableEq, Repr

/-- A row of the GTFS `trips.txt` table, restricted to the columns read. -/
structure Trip where
  route_id : String
  trip_id : String
  deriving DecidableEq, Repr

/-- Translation of `normalize_station_name` (lines 132-153): the explicit
replacement table applied in insertion order, then lowercasing.  The
`unicodedata` NFD decomposition and combining-mark removal that precede
the table are not modelled (no claim depends on the transliteration). -/
def normalize_station_name (s : String) : String :=
  (pyReplace (pyReplace (pyReplace (pyReplace (pyReplace (pyReplace (pyReplace (pyReplace
      (pyReplace (pyReplace (pyReplace s ("é") ("e")) ("è") ("e")) ("ë") ("e")) ("á") ("a"))
      ("à") ("a")) ("ü") ("u")) ("ï") ("i")) ("ö") ("o")) ("ô") ("o")) ("/") ("-"))
      ("\x27") ("")).toLower

/-- The error that aborts a run: the tuple unpacking
`from_station, to_station = [...]` raising `ValueError` when the list does
not have exactly two elements. -/
inductive RunError where
  | unpackError : RunError
  deriving DecidableEq, Repr

/-- The trips loop for one route (lines 320-358).  Per trip: if `'--'`
occurs in the route's long name (equivalently, splitting on `'--'` yields
at least two parts), split and normalize; unpacking into two names raises
`ValueError` unless there are exactly two parts — that exception is not
caught inside `collect_data` and aborts the run.  Otherwise fetch the
connections (`connsOf`; `none` models a failed fetch or a response without
a `connection` key) and run the connection loop. -/
def tripsLoop (now : Int) (connsOf : String → String → Option (List Conn))
    (routeId longName : String) : CState → List Trip → Except RunError CState
  | st, [] => .ok st
  | st, tr :: rest =>
    if 2 ≤ (pySplit longName ("--")).length then
      match (pySplit longName ("--")).map (fun part => normalize_station_name part.trim) with
      | [fromStation, toStation] =>
        let st' :=
          match connsOf fromStation toStation with
          | none => st
          | some conns => processConns now routeId tr.trip_id st conns
        tripsLoop now connsOf routeId longName st' rest
      | _ => .error .unpackError
    else tripsLoop now connsOf routeId longName st rest

/-- The routes loop (lines 314-361): for each train route, iterate its
trips; an uncaught exception from the trips loop propagates. -/
def routesLoop (now : Int) (connsOf : String → String → Option (List Conn))
    (trips : List Trip) : CState → List Route → Except RunError CState
  | st, [] => .ok st
  | st, r :: rest =>
    match tripsLoop now connsOf r.route_id r.route_long_name st
        (trips.filter (fun t => t.route_id == r.route_id)) with
    | .error e => .error e
    | .ok st' => routesLoop now connsOf trips st' rest

/-- Translation of `collect_data` (lines 305-366): filter to routes with
`route_type == 100`, start from an empty journey set and empty CSV, and
run the nested loops. -/
def collect_data (routes : List Route) (trips : List Trip)
    (connsOf : String → String → Option (List Conn)) (now : Int) : Except RunError CState :=
  routesLoop now connsOf trips ⟨[], [], 0, 0⟩
    (routes.filter (fun r => r.route_type == 100))

/-- The `__main__` block (lines 368-375): `collect_data` runs under a
blanket `except Exception` that prints the error; an escaped exception
therefore ends the whole collection run (`none`) instead of skipping
anything. -/
def main_result (routes : List Route) (trips : List Trip)
    (connsOf : String → String → Option (List Conn)) (now : Int) : Option CState :=
  match collect_data routes trips connsOf now with
  | .ok st => some st
  | .error _ => none

/-! ### Specification-side predicates (used to state the claims) -/

/-- Spec-side reading of "the stop's scheduled departure time is already in
the past": the field is present and strictly before `now`. -/
def depInPast (s : Stop) (now : Int) : Bool :=
  match s.scheduledDepartureTime with
  | some d => d < now
  | none => false

/-- Spec-side closed form of the position labels for a run of `m`
written stops: one `"First"`, then intermediates, then one `"Last"` when
there are at least two stops; a lone stop is labelled `"First"` only. -/
def positionsList : Nat → List String
  | 0 => []
  | 1 => ["First"]
  | m + 2 => "First" :: (List.replicate m ("Intermediate") ++ ["Last"])

/-- Spec-side reading of C1's "at least one of the three cancellation
fields is true": any of `canceled`, `arrivalCanceled`, `departureCanceled`
holds the boolean-like value `"1"`. -/
def anyCancelField (s : Stop) : Bool :=
  s.canceled.getD ("0") == "1" || s.arrivalCanceled.getD ("0") == "1"
    || s.departureCanceled.getD ("0") == "1"

/-- The two journey keys differ in exactly one of the five inputs. -/
def differOne (k1 k2 : String × String × String × String × Int) : Prop :=
  (k1.1 ≠ k2.1 ∧ k1.2.1 = k2.2.1 ∧ k1.2.2.1 = k2.2.2.1 ∧ k1.2.2.2.1 = k2.2.2.2.1
      ∧ k1.2.2.2.2 = k2.2.2.2.2)
  ∨ (k1.1 = k2.1 ∧ k1.2.1 ≠ k2.2.1 ∧ k1.2.2.1 = k2.2.2.1 ∧ k1.2.2.2.1 = k2.2.2.2.1
      ∧ k1.2.2.2.2 = k2.2.2.2.2)
  ∨ (k1.1 = k2.1 ∧ k1.2.1 = k2.2.1 ∧ k1.2.2.1 ≠ k2.2.2.1 ∧ k1.2.2.2.1 = k2.2.2.2.1
      ∧ k1.2.2.2.2 = k2.2.2.2.2)
  ∨ (k1.1 = k2.1 ∧ k1.2.1 = k2.2.1 ∧ k1.2.2.1 = k2.2.2.1 ∧ k1.2.2.2.1 ≠ k2.2.2.2.1
      ∧ k1.2.2.2.2 = k2.2.2.2.2)
  ∨ (k1.1 = k2.1 ∧ k1.2.1 = k2.2.1 ∧ k1.2.2.1 = k2.2.2.1 ∧ k1.2.2.2.1 = k2.2.2.2.1
      ∧ k1.2.2.2.2 ≠ k2.2.2.2.2)

/-! ### Helper lemmas -/

theorem str_ext {a b : String} (h : a.data = b.data) : a = b := by
  cases a
  cases b
  exact congrArg String.mk h

theorem str_data_append (a b : String) : (a ++ b).data = a.data ++ b.data := by
  cases a; cases b; rfl

theorem journeyString_data (t ty f l : String) (d : Int) :
    (journeyString t ty f l d).data
      = t.data ++ ('_' :: (ty.data ++ ('_' :: (f.data
          ++ ('_' :: (l.data ++ ('_' :: (intStr d).data))))))) := by
  simp [journeyString, str_data_append, show ("_" : String).data = ['_'] from rfl]

theorem journeyString_ne_of_differOne {k1 k2 : String × String × String × String × Int}
    (h : differOne k1 k2) :
    journeyString k1.1 k1.2.1 k1.2.2.1 k1.2.2.2.1 k1.2.2.2.2
      ≠ journeyString k2.1 k2.2.1 k2.2.2.1 k2.2.2.2.1 k2.2.2.2.2 := by
  obtain ⟨t1, ty1, f1, l1, d1⟩ := k1
  obtain ⟨t2, ty2, f2, l2, d2⟩ := k2
  simp only [differOne] at h
  intro heq
  have hd := congrArg String.data heq
  rw [journeyString_data, journeyString_data] at hd
  rcases h with ⟨hne, h2, h3, h4, h5⟩ | ⟨h1, hne, h3, h4, h5⟩ | ⟨h1, h2, hne, h4, h5⟩
    | ⟨h1, h2, h3, hne, h5⟩ | ⟨h1, h2, h3, h4, hne⟩ <;> simp_all
  · exact hne (str_ext hd)
  · exact hne (str_ext hd)
  · exact hne (str_ext hd)
  · exact hne (str_ext hd)
  · exact hne (intStr_inj (str_ext hd))

theorem writeRows_positions (routeId tripId : String) (tp ty : PyStr) (n : Nat) :
    ∀ (l : List Stop) (i : Nat) (rows : List Row),
      writeRows routeId tripId tp ty n i l = (true, rows) →
      rows.map Row.station_position = (List.range l.length).map (fun k => posOf (i + k) n) := by
  intro l
  induction l with
  | nil =>
    intro i rows h
    simp [writeRows] at h
    simp [h]
  | cons s rest ih =>
    intro i rows h
    simp only [writeRows] at h
    by_cases henc : rowEncodable (mkRow routeId tripId tp ty i n s)
    · rw [if_pos henc] at h
      rcases hw : writeRows routeId tripId tp ty n (i + 1) rest with ⟨ok, rs⟩
      rw [hw] at h
      have hok : ok = true := congrArg Prod.fst h
      have hrows : mkRow routeId tripId tp ty i n s :: rs = rows := congrArg Prod.snd h
      subst hok
      subst hrows
      have hih := ih (i + 1) rs hw
      simp only [List.map_cons, List.length_cons, List.range_succ_eq_map, List.map_map]
      rw [hih]
      congr 1
      apply List.map_congr_left
      intro k hk
      simp only [Function.comp_apply]
      congr 1
      omega
    · rw [if_neg henc] at h
      cases h

theorem writeRows_stations (routeId tripId : String) (tp ty : PyStr) (n : Nat) :
    ∀ (l : List Stop) (i : Nat) (rows : List Row),
      writeRows routeId tripId tp ty n i l = (true, rows) →
      rows.map Row.station_name = l.map Stop.station := by
  intro l
  induction l with
  | nil =>
    intro i rows h
    simp [writeRows] at h
    simp [h]
  | cons s rest ih =>
    intro i rows h
    simp only [writeRows] at h
    by_cases henc : rowEncodable (mkRow routeId tripId tp ty i n s)
    · rw [if_pos henc] at h
      rcases hw : writeRows routeId tripId tp ty n (i + 1) rest with ⟨ok, rs⟩
      rw [hw] at h
      have hok : ok = true := congrArg Prod.fst h
      have hrows : mkRow routeId tripId tp ty i n s :: rs = rows := congrArg Prod.snd h
      subst hok
      subst hrows
      have hih := ih (i + 1) rs hw
      simp only [List.map_cons]
      rw [hih]
      congr 1
    · rw [if_neg henc] at h
      cases h

theorem pastStops_eq_filter (vd : VehicleData) (now : Int) :
    pastStops vd now = vd.stop.filter (fun s => depInPast s now) := by
  unfold pastStops
  apply List.filter_congr
  intro s _
  cases hd : s.scheduledDepartureTime with
  | none => simp [depInPast, hd]
  | some d => simp [depInPast, hd]

theorem range_posOf (m : Nat) : (List.range m).map (fun k => posOf k m) = positionsList m := by
  match m with
  | 0 => rfl
  | 1 => rfl
  | m' + 2 =>
    rw [List.range_succ, List.map_append, List.range_succ_eq_map, List.map_cons, List.map_map]
    have hfirst : posOf 0 (m' + 2) = "First" := rfl
    have hlast : posOf (m' + 1) (m' + 2) = "Last" := by simp [posOf]
    have hmid : (List.range m').map ((fun k => posOf k (m' + 2)) ∘ Nat.succ)
        = List.replicate m' ("Intermediate") := by
      refine List.eq_replicate_iff.mpr ⟨by simp, ?_⟩
      intro b hb
      rw [List.mem_map] at hb
      obtain ⟨k, hk, hb⟩ := hb
      rw [List.mem_range] at hk
      rw [← hb]
      simp only [Function.comp_apply, posOf, Nat.succ_eq_add_one]
      rw [if_neg (by omega), if_neg (by omega)]
    rw [hfirst, hmid]
    simp only [List.map_singleton, hlast]
    rfl

theorem process_true_writeRows {routeId tripId : String} {vd : VehicleData} {now : Int}
    {rows : List Row} (h : process_vehicle_stops routeId tripId vd now = (true, rows)) :
    writeRows routeId tripId
      ⟨pyReplace vd.vehicleinfo.name.val ("BE.NMBS.") (""), vd.vehicleinfo.name.enc⟩
      vd.vehicleinfo.vtype (pastStops vd now).length 0 (pastStops vd now) = (true, rows) := by
  unfold process_vehicle_stops at h
  by_cases h1 : vd.isDict
  · by_cases h2 : vd.stopsIsDict
    · by_cases h3 : vd.stop.isEmpty
      · simp [h1, h2, h3] at h
      · simpa [h1, h2, h3] using h
    · simp [h1, h2] at h
  · simp [h1] at h

theorem fdiv60_bounds (d : Int) :
    Int.fdiv d 60 * 60 ≤ d ∧ d < Int.fdiv d 60 * 60 + 60 := by
  rw [Int.fdiv_eq_ediv d (by omega)]
  omega

/-- C1 (amended): in the row written for a stop, `is_cancelled` is `1` iff the
stop's general `canceled` field (defaulting to `"0"`) equals `"1"`; the
arrival-cancel and departure-cancel fields are ignored — the row is unchanged
under any values of those two fields. -/
theorem c1_cancellation_flag (routeId tripId : String) (tp ty : PyStr) (i n : Nat)
    (s : Stop) (a d : Option String) :
    ((mkRow routeId tripId tp ty i n s).is_cancelled = 1 ↔ s.canceled.getD ("0") = "1") ∧
    (mkRow routeId tripId tp ty i n
        { s with arrivalCanceled := a, departureCanceled := d }).is_cancelled
      = (mkRow routeId tripId tp ty i n s).is_cancelled := by
  constructor
  · simp only [mkRow]
    split <;> simp_all
  · rfl

/-- C1 counterexample: a stop whose arrival-cancel field is `"1"` while the
general `canceled` field is `"0"` satisfies "at least one of the three
cancellation fields is true", yet the written row has `is_cancelled = 0` —
the code (line 290) reads only the `canceled` field. -/
theorem c1_counterexample :
    anyCancelField
        { station := ⟨"Brussels-South", true⟩, canceled := some ("0"),
          arrivalCanceled := some ("1"), departureCanceled := some ("0") } = true ∧
    (mkRow ("r1") ("t1") ⟨"IC123", true⟩ ⟨"IC", true⟩ 0 2
        { station := ⟨"Brussels-South", true⟩, canceled := some ("0"),
          arrivalCanceled := some ("1"), departureCanceled := some ("0") }).is_cancelled
      = 0 := by
  decide

/-- C5: in every written row, the actual arrival (resp. departure) timestamp is
the scheduled timestamp plus the arrival (resp. departure) delay in seconds,
and the written delay-minutes value is the delay in seconds floor-divided by
60 — i.e. it is the unique integer `q` with `q * 60 ≤ delay < q * 60 + 60`,
also for negative delays. -/
theorem c5_times_and_delays (routeId tripId : String) (tp ty : PyStr) (i n : Nat) (s : Stop) :
    ((mkRow routeId tripId tp ty i n s).actual_arrival
        = (mkRow routeId tripId tp ty i n s).scheduled_arrival.map
            (fun x => x + s.arrivalDelay.getD 0)) ∧
    ((mkRow routeId tripId tp ty i n s).actual_departure
        = (mkRow routeId tripId tp ty i n s).scheduled_departure.map
            (fun x => x + s.departureDelay.getD 0)) ∧
    ((mkRow routeId tripId tp ty i n s).arrival_delay = Int.fdiv (s.arrivalDelay.getD 0) 60) ∧
    ((mkRow routeId tripId tp ty i n s).departure_delay
        = Int.fdiv (s.departureDelay.getD 0) 60) ∧
    ((mkRow routeId tripId tp ty i n s).arrival_delay * 60 ≤ s.arrivalDelay.getD 0 ∧
      s.arrivalDelay.getD 0 < (mkRow routeId tripId tp ty i n s).arrival_delay * 60 + 60) ∧
    ((mkRow routeId tripId tp ty i n s).departure_delay * 60 ≤ s.departureDelay.getD 0 ∧
      s.departureDelay.getD 0 < (mkRow routeId tripId tp ty i n s).departure_delay * 60 + 60) := by
  refine ⟨?_, ?_, rfl, rfl, ?_, ?_⟩
  · simp only [mkRow]
    split <;> simp
  · simp only [mkRow]
    split <;> simp
  · exact fdiv60_bounds _
  · exact fdiv60_bounds _

/-- C3 (amended): the position labels of the rows written by a successful
`process_vehicle_stops` call are exactly `positionsList M` where `M` is the
length of the *filtered* past-stops list: one `"First"` (the first past stop),
then intermediates, then one `"Last"` when `M ≥ 2`; for `M = 1` the single row
is labelled `"First"` only (the `elif` on line 258 is not reached), and for
`M = 0` no rows are written.  Classification is by index within the filtered
list, not within the full stop sequence. -/
theorem c3_positions (routeId tripId : String) (vd : VehicleData) (now : Int) (rows : List Row)
    (h : process_vehicle_stops routeId tripId vd now = (true, rows)) :
    rows.map Row.station_position = positionsList (pastStops vd now).length := by
  have hw := process_true_writeRows h
  have hpos := writeRows_positions routeId tripId
    ⟨pyReplace vd.vehicleinfo.name.val ("BE.NMBS.") (""), vd.vehicleinfo.name.enc⟩
    vd.vehicleinfo.vtype (pastStops vd now).length (pastStops vd now) 0 rows hw
  rw [hpos, ← range_posOf]
  apply List.map_congr_left
  intro k _
  rw [Nat.zero_add]

/-- C3 witness: a vehicle with three past stops yields position labels
`["First", "Intermediate", "Last"]`. -/
theorem c3_positions_witness :
    (process_vehicle_stops ("r1") ("t1")
        { isDict := true, truthy := true, stopsIsDict := true,
          vehicleinfo := ⟨⟨"BE.NMBS.IC123", true⟩, ⟨"IC", true⟩⟩,
          stop := [{ station := ⟨"A", true⟩, scheduledDepartureTime := some 1 },
                   { station := ⟨"B", true⟩, scheduledDepartureTime := some 2 },
                   { station := ⟨"C", true⟩, scheduledDepartureTime := some 3 }] } 10).2.map
        Row.station_position
      = ["First", "Intermediate", "Last"] := by
  have h := c3_positions ("r1") ("t1")
    { isDict := true, truthy := true, stopsIsDict := true,
      vehicleinfo := ⟨⟨"BE.NMBS.IC123", true⟩, ⟨"IC", true⟩⟩,
      stop := [{ station := ⟨"A", true⟩, scheduledDepartureTime := some 1 },
               { station := ⟨"B", true⟩, scheduledDepartureTime := some 2 },
               { station := ⟨"C", true⟩, scheduledDepartureTime := some 3 }] } 10
    (process_vehicle_stops ("r1") ("t1")
        { isDict := true, truthy := true, stopsIsDict := true,
          vehicleinfo := ⟨⟨"BE.NMBS.IC123", true⟩, ⟨"IC", true⟩⟩,
          stop := [{ station := ⟨"A", true⟩, scheduledDepartureTime := some 1 },
                   { station := ⟨"B", true⟩, scheduledDepartureTime := some 2 },
                   { station := ⟨"C", true⟩, scheduledDepartureTime := some 3 }] } 10).2
    (by decide)
  rw [h]
  decide

/-- C3 counterexample: a stop list of length `N = 1` (one past stop) produces a
single row labelled `"First"` and no row labelled `"Last"`, contradicting the
claim that exactly one stop is classified `"Last"` and that for `N = 1` the
stop carries both boundary classifications. -/
theorem c3_counterexample :
    (process_vehicle_stops ("r1") ("t1")
        { isDict := true, truthy := true, stopsIsDict := true,
          vehicleinfo := ⟨⟨"BE.NMBS.IC123", true⟩, ⟨"IC", true⟩⟩,
          stop := [{ station := ⟨"A", true⟩, scheduledDepartureTime := some 1 }] } 10).2.map
        Row.station_position = ["First"] ∧
    ((process_vehicle_stops ("r1") ("t1")
        { isDict := true, truthy := true, stopsIsDict := true,
          vehicleinfo := ⟨⟨"BE.NMBS.IC123", true⟩, ⟨"IC", true⟩⟩,
          stop := [{ station := ⟨"A", true⟩, scheduledDepartureTime := some 1 }] } 10).2.filter
        (fun r => r.station_position == "Last")).length = 0 := by
  decide

/-- C6: a successful `process_vehicle_stops` call writes rows exactly for the
stops whose scheduled departure time is present and strictly before `now`
(the `past_stops` filter of lines 249-252; an absent departure time defaults
to `now + 1` and is therefore excluded), in stop-list order; all other stops
produce no row. -/
theorem c6_rows_iff_past (routeId tripId : String) (vd : VehicleData) (now : Int)
    (rows : List Row) (h : process_vehicle_stops routeId tripId vd now = (true, rows)) :
    rows.map Row.station_name = (vd.stop.filter (fun s => depInPast s now)).map Stop.station ∧
    rows.length = (vd.stop.filter (fun s => depInPast s now)).length := by
  have hw := process_true_writeRows h
  have hst := writeRows_stations routeId tripId
    ⟨pyReplace vd.vehicleinfo.name.val ("BE.NMBS.") (""), vd.vehicleinfo.name.enc⟩
    vd.vehicleinfo.vtype (pastStops vd now).length (pastStops vd now) 0 rows hw
  rw [pastStops_eq_filter] at hst
  refine ⟨hst, ?_⟩
  have hlen := congrArg List.length hst
  simpa using hlen

/-- C6 witness: of three stops — past departure, future departure, absent
departure — only the past one is written. -/
theorem c6_rows_iff_past_witness :
    (process_vehicle_stops ("r1") ("t1")
        { isDict := true, truthy := true, stopsIsDict := true,
          vehicleinfo := ⟨⟨"BE.NMBS.IC123", true⟩, ⟨"IC", true⟩⟩,
          stop := [{ station := ⟨"A", true⟩, scheduledDepartureTime := some 1 },
                   { station := ⟨"B", true⟩, scheduledDepartureTime := some 99 },
                   { station := ⟨"C", true⟩ }] } 10).2.map Row.station_name
      = [⟨"A", true⟩] := by
  have h := c6_rows_iff_past ("r1") ("t1")
    { isDict := true, truthy := true, stopsIsDict := true,
      vehicleinfo := ⟨⟨"BE.NMBS.IC123", true⟩, ⟨"IC", true⟩⟩,
      stop := [{ station := ⟨"A", true⟩, scheduledDepartureTime := some 1 },
               { station := ⟨"B", true⟩, scheduledDepartureTime := some 99 },
               { station := ⟨"C", true⟩ }] } 10
    (process_vehicle_stops ("r1") ("t1")
        { isDict := true, truthy := true, stopsIsDict := true,
          vehicleinfo := ⟨⟨"BE.NMBS.IC123", true⟩, ⟨"IC", true⟩⟩,
          stop := [{ station := ⟨"A", true⟩, scheduledDepartureTime := some 1 },
                   { station := ⟨"B", true⟩, scheduledDepartureTime := some 99 },
                   { station := ⟨"C", true⟩ }] } 10).2
    (by decide)
  rw [h.1]
  decide

theorem connStep_future (now : Int) (routeId tripId : String) (st : CState) (c : Conn)
    (h : c.time.getD 0 ≥ now) : connStep now routeId tripId st c = st := by
  unfold connStep
  rw [if_pos h]

theorem connStep_nofetch (now : Int) (routeId tripId : String) (st : CState) (c : Conn)
    (h : fetch_vehicle_data c.fetch = none) : connStep now routeId tripId st c = st := by
  unfold connStep
  by_cases ht : c.time.getD 0 ≥ now
  · rw [if_pos ht]
  · rw [if_neg ht]
    by_cases hv : c.vehicle.getD ("") = ""
    · rw [if_pos hv]
    · rw [if_neg hv, h]

theorem connStep_processed_case (now : Int) (routeId tripId : String) (st : CState)
    (c : Conn) (vd : VehicleData) (rows : List Row)
    (h1 : c.time.getD 0 < now) (h2 : c.vehicle.getD ("") ≠ "")
    (h3 : fetch_vehicle_data c.fetch = some vd) (h4 : vd.truthy = true)
    (h5 : generate_journey_identifier vd ∉ st.processed)
    (h6 : process_vehicle_stops routeId tripId vd now = (true, rows)) :
    connStep now routeId tripId st c
      = { st with
          processed := generate_journey_identifier vd :: st.processed
          written := st.written ++ rows
          totalProcessed := st.totalProcessed + 1 } := by
  simp [connStep, not_le.mpr h1, h2, h3, h4, h5, h6]

theorem connStep_dup_case (now : Int) (routeId tripId : String) (st : CState)
    (c : Conn) (vd : VehicleData)
    (h1 : c.time.getD 0 < now) (h2 : c.vehicle.getD ("") ≠ "")
    (h3 : fetch_vehicle_data c.fetch = some vd) (h4 : vd.truthy = true)
    (h5 : generate_journey_identifier vd ∈ st.processed) :
    connStep now routeId tripId st c = { st with dupSkipped := st.dupSkipped + 1 } := by
  simp [connStep, not_le.mpr h1, h2, h3, h4, h5]

theorem connStep_fail_case (now : Int) (routeId tripId : String) (st : CState)
    (c : Conn) (vd : VehicleData) (rows : List Row)
    (h1 : c.time.getD 0 < now) (h2 : c.vehicle.getD ("") ≠ "")
    (h3 : fetch_vehicle_data c.fetch = some vd) (h4 : vd.truthy = true)
    (h5 : generate_journey_identifier vd ∉ st.processed)
    (h6 : process_vehicle_stops routeId tripId vd now = (false, rows)) :
    connStep now routeId tripId st c = { st with written := st.written ++ rows } := by
  simp [connStep, not_le.mpr h1, h2, h3, h4, h5, h6]

/-- C4: in the connection loop of `collect_data` (lines 333-337), a connection
whose departure time is not strictly before `now` (the wall-clock snapshot
taken when `collect_data` starts, line 312) leaves the state untouched —
no vehicle fetch, no write; and on a response holding one past and one
future departure, only the past one is fetched and processed: its rows are
written and it alone is counted. -/
theorem c4_past_filter (now : Int) (routeId tripId : String) (st : CState)
    (cF cP : Conn) (vd : VehicleData) (rows : List Row)
    (hfut : cF.time.getD 0 ≥ now)
    (hpast : cP.time.getD 0 < now) (hv : cP.vehicle.getD ("") ≠ "")
    (hf : fetch_vehicle_data cP.fetch = some vd) (ht : vd.truthy = true)
    (hnew : generate_journey_identifier vd ∉ st.processed)
    (hok : process_vehicle_stops routeId tripId vd now = (true, rows)) :
    connStep now routeId tripId st cF = st ∧
    processConns now routeId tripId st [cP, cF]
      = { st with
          processed := generate_journey_identifier vd :: st.processed
          written := st.written ++ rows
          totalProcessed := st.totalProcessed + 1 } := by
  refine ⟨connStep_future now routeId tripId st cF hfut, ?_⟩
  simp only [processConns, List.foldl]
  rw [connStep_processed_case now routeId tripId st cP vd rows hpast hv hf ht hnew hok,
    connStep_future now routeId tripId _ cF hfut]

/-- C4 witness: with `now = 10`, a connection departing at 3 is processed
(one row written, counter 1) and a connection departing at 99 is skipped. -/
theorem c4_past_filter_witness :
    connStep 10 ("r1") ("t1") ⟨[], [], 0, 0⟩ ⟨some 99, some ("V2"), .networkError⟩
        = ⟨[], [], 0, 0⟩ ∧
    processConns 10 ("r1") ("t1") ⟨[], [], 0, 0⟩
        [⟨some 3, some ("V1"), .response ⟨200, .valid
            { isDict := true, truthy := true, stopsIsDict := true,
              vehicleinfo := ⟨⟨"BE.NMBS.IC123", true⟩, ⟨"IC", true⟩⟩,
              stop := [{ station := ⟨"A", true⟩, scheduledDepartureTime := some 1 }] }⟩⟩,
          ⟨some 99, some ("V2"), .networkError⟩]
      = { processed := [generate_journey_identifier
            { isDict := true, truthy := true, stopsIsDict := true,
              vehicleinfo := ⟨⟨"BE.NMBS.IC123", true⟩, ⟨"IC", true⟩⟩,
              stop := [{ station := ⟨"A", true⟩, scheduledDepartureTime := some 1 }] }]
          written := (process_vehicle_stops ("r1") ("t1")
            { isDict := true, truthy := true, stopsIsDict := true,
              vehicleinfo := ⟨⟨"BE.NMBS.IC123", true⟩, ⟨"IC", true⟩⟩,
              stop := [{ station := ⟨"A", true⟩, scheduledDepartureTime := some 1 }] } 10).2
          totalProcessed := 1
          dupSkipped := 0 } := by
  have h := c4_past_filter 10 ("r1") ("t1") ⟨[], [], 0, 0⟩
    ⟨some 99, some ("V2"), .networkError⟩
    ⟨some 3, some ("V1"), .response ⟨200, .valid
        { isDict := true, truthy := true, stopsIsDict := true,
          vehicleinfo := ⟨⟨"BE.NMBS.IC123", true⟩, ⟨"IC", true⟩⟩,
          stop := [{ station := ⟨"A", true⟩, scheduledDepartureTime := some 1 }] }⟩⟩
    { isDict := true, truthy := true, stopsIsDict := true,
      vehicleinfo := ⟨⟨"BE.NMBS.IC123", true⟩, ⟨"IC", true⟩⟩,
      stop := [{ station := ⟨"A", true⟩, scheduledDepartureTime := some 1 }] }
    (process_vehicle_stops ("r1") ("t1")
        { isDict := true, truthy := true, stopsIsDict := true,
          vehicleinfo := ⟨⟨"BE.NMBS.IC123", true⟩, ⟨"IC", true⟩⟩,
          stop := [{ station := ⟨"A", true⟩, scheduledDepartureTime := some 1 }] } 10).2
    (by decide) (by decide) (by decide) (by decide) (by decide) (by decide) (by decide)
  refine ⟨h.1, ?_⟩
  rw [h.2]
  simp

/-- C7: the journey identifier is recorded in the in-memory set only after a
successful write: when `process_vehicle_stops` returns `False` for a vehicle
(line 352), the set of processed journeys is unchanged; when it returns
`True`, the state records exactly that vehicle's identifier on top of the
previous set (lines 352-354). -/
theorem c7_record_after_success (now : Int) (routeId tripId : String) (st : CState)
    (c cOk : Conn) (vd vdOk : VehicleData) (rowsPartial rowsOk : List Row)
    (h1 : c.time.getD 0 < now) (h2 : c.vehicle.getD ("") ≠ "")
    (h3 : fetch_vehicle_data c.fetch = some vd) (h4 : vd.truthy = true)
    (h5 : generate_journey_identifier vd ∉ st.processed)
    (hfail : process_vehicle_stops routeId tripId vd now = (false, rowsPartial))
    (g1 : cOk.time.getD 0 < now) (g2 : cOk.vehicle.getD ("") ≠ "")
    (g3 : fetch_vehicle_data cOk.fetch = some vdOk) (g4 : vdOk.truthy = true)
    (g5 : generate_journey_identifier vdOk ∉ st.processed)
    (gok : process_vehicle_stops routeId tripId vdOk now = (true, rowsOk)) :
    (connStep now routeId tripId st c).processed = st.processed ∧
    (connStep now routeId tripId st cOk).processed
      = generate_journey_identifier vdOk :: st.processed := by
  constructor
  · rw [connStep_fail_case now routeId tripId st c vd rowsPartial h1 h2 h3 h4 h5 hfail]
  · rw [connStep_processed_case now routeId tripId st cOk vdOk rowsOk g1 g2 g3 g4 g5 gok]

/-- C7 witness: a vehicle whose stop list is empty makes
`process_vehicle_stops` return `False` and leaves the journey set unchanged;
a well-formed vehicle gets its identifier recorded. -/
theorem c7_record_after_success_witness :
    (connStep 10 ("r1") ("t1") ⟨[], [], 0, 0⟩
        ⟨some 3, some ("V1"), .response ⟨200, .valid
          { isDict := true, truthy := true, stopsIsDict := true,
            vehicleinfo := ⟨⟨"BE.NMBS.IC1", true⟩, ⟨"IC", true⟩⟩,
            stop := [{ station := ⟨"A", false⟩, scheduledDepartureTime := some 1 }] }⟩⟩).processed
      = [] ∧
    (connStep 10 ("r1") ("t1") ⟨[], [], 0, 0⟩
        ⟨some 3, some ("V2"), .response ⟨200, .valid
          { isDict := true, truthy := true, stopsIsDict := true,
            vehicleinfo := ⟨⟨"BE.NMBS.IC2", true⟩, ⟨"IC", true⟩⟩,
            stop := [{ station := ⟨"B", true⟩, scheduledDepartureTime := some 1 }] }⟩⟩).processed
      = [generate_journey_identifier
          { isDict := true, truthy := true, stopsIsDict := true,
            vehicleinfo := ⟨⟨"BE.NMBS.IC2", true⟩, ⟨"IC", true⟩⟩,
            stop := [{ station := ⟨"B", true⟩, scheduledDepartureTime := some 1 }] }] := by
  have h := c7_record_after_success 10 ("r1") ("t1") ⟨[], [], 0, 0⟩
    ⟨some 3, some ("V1"), .response ⟨200, .valid
        { isDict := true, truthy := true, stopsIsDict := true,
          vehicleinfo := ⟨⟨"BE.NMBS.IC1", true⟩, ⟨"IC", true⟩⟩,
          stop := [{ station := ⟨"A", false⟩, scheduledDepartureTime := some 1 }] }⟩⟩
    ⟨some 3, some ("V2"), .response ⟨200, .valid
        { isDict := true, truthy := true, stopsIsDict := true,
          vehicleinfo := ⟨⟨"BE.NMBS.IC2", true⟩, ⟨"IC", true⟩⟩,
          stop := [{ station := ⟨"B", true⟩, scheduledDepartureTime := some 1 }] }⟩⟩
    { isDict := true, truthy := true, stopsIsDict := true,
      vehicleinfo := ⟨⟨"BE.NMBS.IC1", true⟩, ⟨"IC", true⟩⟩,
      stop := [{ station := ⟨"A", false⟩, scheduledDepartureTime := some 1 }] }
    { isDict := true, truthy := true, stopsIsDict := true,
      vehicleinfo := ⟨⟨"BE.NMBS.IC2", true⟩, ⟨"IC", true⟩⟩,
      stop := [{ station := ⟨"B", true⟩, scheduledDepartureTime := some 1 }] }
    [] (process_vehicle_stops ("r1") ("t1")
        { isDict := true, truthy := true, stopsIsDict := true,
          vehicleinfo := ⟨⟨"BE.NMBS.IC2", true⟩, ⟨"IC", true⟩⟩,
          stop := [{ station := ⟨"B", true⟩, scheduledDepartureTime := some 1 }] } 10).2
    (by decide) (by decide) (by decide) (by decide) (by decide) (by decide)
    (by decide) (by decide) (by decide) (by decide) (by decide) (by decide)
  exact h

/-- C8: `fetch_vehicle_data` returns the failure signal `None` for each of
the three error classes — network-level failure, HTTP error status (the
`raise_for_status` call fires for any status ≥ 400), and a malformed JSON
body — because all three raise `requests.exceptions.RequestException`s
caught on line 178; and the connection loop is unaffected by the failed
vehicle: the state passes through it unchanged and the next vehicle is
still processed. -/
theorem c8_fetch_errors (status : Nat) (hstatus : 400 ≤ status) (b : JsonBody)
    (now : Int) (routeId tripId : String) (st : CState) (cErr cGood : Conn)
    (vd : VehicleData) (rows : List Row)
    (he : fetch_vehicle_data cErr.fetch = none)
    (g1 : cGood.time.getD 0 < now) (g2 : cGood.vehicle.getD ("") ≠ "")
    (g3 : fetch_vehicle_data cGood.fetch = some vd) (g4 : vd.truthy = true)
    (g5 : generate_journey_identifier vd ∉ st.processed)
    (g6 : process_vehicle_stops routeId tripId vd now = (true, rows)) :
    fetch_vehicle_data .networkError = none ∧
    fetch_vehicle_data (.response ⟨status, b⟩) = none ∧
    fetch_vehicle_data (.response ⟨200, .malformed⟩) = none ∧
    connStep now routeId tripId st cErr = st ∧
    processConns now routeId tripId st [cErr, cGood]
      = { st with
          processed := generate_journey_identifier vd :: st.processed
          written := st.written ++ rows
          totalProcessed := st.totalProcessed + 1 } := by
  refine ⟨rfl, ?_, rfl, connStep_nofetch now routeId tripId st cErr he, ?_⟩
  · simp [fetch_vehicle_data, hstatus]
  · simp only [processConns, List.foldl]
    rw [connStep_nofetch now routeId tripId st cErr he,
      connStep_processed_case now routeId tripId st cGood vd rows g1 g2 g3 g4 g5 g6]

/-- C8 witness: a vehicle whose fetch hits a 500 status is skipped with the
state unchanged, and the following vehicle is still processed. -/
theorem c8_fetch_errors_witness :
    fetch_vehicle_data (.response ⟨500, .malformed⟩) = none ∧
    processConns 10 ("r1") ("t1") ⟨[], [], 0, 0⟩
        [⟨some 3, some ("V1"), .response ⟨500, .malformed⟩⟩,
          ⟨some 3, some ("V2"), .response ⟨200, .valid
            { isDict := true, truthy := true, stopsIsDict := true,
              vehicleinfo := ⟨⟨"BE.NMBS.IC9", true⟩, ⟨"IC", true⟩⟩,
              stop := [{ station := ⟨"A", true⟩, scheduledDepartureTime := some 1 }] }⟩⟩]
      = { processed := [generate_journey_identifier
            { isDict := true, truthy := true, stopsIsDict := true,
              vehicleinfo := ⟨⟨"BE.NMBS.IC9", true⟩, ⟨"IC", true⟩⟩,
              stop := [{ station := ⟨"A", true⟩, scheduledDepartureTime := some 1 }] }]
          written := (process_vehicle_stops ("r1") ("t1")
            { isDict := true, truthy := true, stopsIsDict := true,
              vehicleinfo := ⟨⟨"BE.NMBS.IC9", true⟩, ⟨"IC", true⟩⟩,
              stop := [{ station := ⟨"A", true⟩, scheduledDepartureTime := some 1 }] } 10).2
          totalProcessed := 1
          dupSkipped := 0 } := by
  have h := c8_fetch_errors 500 (by decide) .malformed 10 ("r1") ("t1") ⟨[], [], 0, 0⟩
    ⟨some 3, some ("V1"), .response ⟨500, .malformed⟩⟩
    ⟨some 3, some ("V2"), .response ⟨200, .valid
        { isDict := true, truthy := true, stopsIsDict := true,
          vehicleinfo := ⟨⟨"BE.NMBS.IC9", true⟩, ⟨"IC", true⟩⟩,
          stop := [{ station := ⟨"A", true⟩, scheduledDepartureTime := some 1 }] }⟩⟩
    { isDict := true, truthy := true, stopsIsDict := true,
      vehicleinfo := ⟨⟨"BE.NMBS.IC9", true⟩, ⟨"IC", true⟩⟩,
      stop := [{ station := ⟨"A", true⟩, scheduledDepartureTime := some 1 }] }
    (process_vehicle_stops ("r1") ("t1")
        { isDict := true, truthy := true, stopsIsDict := true,
          vehicleinfo := ⟨⟨"BE.NMBS.IC9", true⟩, ⟨"IC", true⟩⟩,
          stop := [{ station := ⟨"A", true⟩, scheduledDepartureTime := some 1 }] } 10).2
    (by decide) (by decide) (by decide) (by decide) (by decide) (by decide) (by decide)
  refine ⟨h.2.1, ?_⟩
  rw [h.2.2.2.2]
  simp

/-- C2: two vehicle payloads whose five identifier inputs (stripped train id,
train type, first station, last station, first scheduled departure) are equal
get the same journey identifier, and when the loop processes them in
sequence the second is skipped as a counted duplicate; payloads whose inputs
differ in exactly one of the five get distinct identifiers (the identifier
is the MD5 digest of the deterministic underscore-joined journey string,
modelled by the journey string itself — see `journeyString`). -/
theorem c2_dedup_identifier (v1 v2 : VehicleData)
    (k1 k2 : String × String × String × String × Int)
    (h1 : journeyKey v1 = some k1) (h2 : journeyKey v2 = some k2)
    (now : Int) (routeId tripId : String) (st : CState) (cA cB : Conn) (rows : List Row)
    (hA1 : cA.time.getD 0 < now) (hA2 : cA.vehicle.getD ("") ≠ "")
    (hA3 : fetch_vehicle_data cA.fetch = some v1) (hA4 : v1.truthy = true)
    (hB1 : cB.time.getD 0 < now) (hB2 : cB.vehicle.getD ("") ≠ "")
    (hB3 : fetch_vehicle_data cB.fetch = some v2) (hB4 : v2.truthy = true)
    (hnew : generate_journey_identifier v1 ∉ st.processed)
    (hok : process_vehicle_stops routeId tripId v1 now = (true, rows)) :
    (k1 = k2 →
      generate_journey_identifier v1 = generate_journey_identifier v2 ∧
      processConns now routeId tripId st [cA, cB]
        = { st with
            processed := generate_journey_identifier v1 :: st.processed
            written := st.written ++ rows
            totalProcessed := st.totalProcessed + 1
            dupSkipped := st.dupSkipped + 1 }) ∧
    (differOne k1 k2 →
      generate_journey_identifier v1 ≠ generate_journey_identifier v2) := by
  have g1 : generate_journey_identifier v1
      = some (journeyString k1.1 k1.2.1 k1.2.2.1 k1.2.2.2.1 k1.2.2.2.2) := by
    rw [gen_eq_journeyKey, h1]
    rfl
  have g2 : generate_journey_identifier v2
      = some (journeyString k2.1 k2.2.1 k2.2.2.1 k2.2.2.2.1 k2.2.2.2.2) := by
    rw [gen_eq_journeyKey, h2]
    rfl
  constructor
  · intro hk
    have geq : generate_journey_identifier v1 = generate_journey_identifier v2 := by
      rw [g1, g2, hk]
    refine ⟨geq, ?_⟩
    simp only [processConns, List.foldl]
    rw [connStep_processed_case now routeId tripId st cA v1 rows hA1 hA2 hA3 hA4 hnew hok]
    rw [connStep_dup_case now routeId tripId _ cB v2 hB1 hB2 hB3 hB4
      (by rw [← geq]; exact List.mem_cons_self _ _)]
  · intro hd heq
    rw [g1, g2] at heq
    exact journeyString_ne_of_differOne hd (Option.some.inj heq)

/-- First payload for the C2 witness: train name carries the `BE.NMBS.`
prefix that the code strips. -/
def c2v1 : VehicleData :=
  { isDict := true, truthy := true, stopsIsDict := true,
    vehicleinfo := ⟨⟨"BE.NMBS.IC501", true⟩, ⟨"IC", true⟩⟩,
    stop := [{ station := ⟨"Gent", true⟩, scheduledDepartureTime := some 5 },
             { station := ⟨"Brugge", true⟩, scheduledDepartureTime := some 8 }] }

/-- Second payload for the C2 witness: textually different (no prefix,
different platform data) but with the same five identifier inputs. -/
def c2v2 : VehicleData :=
  { isDict := true, truthy := true, stopsIsDict := true,
    vehicleinfo := ⟨⟨"IC501", true⟩, ⟨"IC", true⟩⟩,
    stop := [{ station := ⟨"Gent", true⟩, scheduledDepartureTime := some 5,
               platform := some ⟨"4", true⟩ },
             { station := ⟨"Brugge", true⟩, scheduledDepartureTime := some 8 }] }

/-- Third payload for the C2 witness: same as the first except the train
type, i.e. the five inputs differ in exactly one place. -/
def c2v3 : VehicleData :=
  { isDict := true, truthy := true, stopsIsDict := true,
    vehicleinfo := ⟨⟨"BE.NMBS.IC501", true⟩, ⟨"P", true⟩⟩,
    stop := [{ station := ⟨"Gent", true⟩, scheduledDepartureTime := some 5 },
             { station := ⟨"Brugge", true⟩, scheduledDepartureTime := some 8 }] }

/-- C2 witness: the loop writes the first payload and skips its key-equal
double as a counted duplicate, and the one-input-changed payload gets a
different identifier. -/
theorem c2_dedup_identifier_witness :
    (generate_journey_identifier c2v1 = generate_journey_identifier c2v2 ∧
      processConns 10 ("r1") ("t1") ⟨[], [], 0, 0⟩
          [⟨some 3, some ("V1"), .response ⟨200, .valid c2v1⟩⟩,
            ⟨some 4, some ("V2"), .response ⟨200, .valid c2v2⟩⟩]
        = { processed := [generate_journey_identifier c2v1]
            written := (process_vehicle_stops ("r1") ("t1") c2v1 10).2
            totalProcessed := 1
            dupSkipped := 1 }) ∧
    generate_journey_identifier c2v1 ≠ generate_journey_identifier c2v3 := by
  constructor
  · have h := (c2_dedup_identifier c2v1 c2v2
      ("IC501", "IC", "Gent", "Brugge", 5) ("IC501", "IC", "Gent", "Brugge", 5)
      (by decide) (by decide) 10 ("r1") ("t1") ⟨[], [], 0, 0⟩
      ⟨some 3, some ("V1"), .response ⟨200, .valid c2v1⟩⟩
      ⟨some 4, some ("V2"), .response ⟨200, .valid c2v2⟩⟩
      (process_vehicle_stops ("r1") ("t1") c2v1 10).2
      (by decide) (by decide) (by decide) (by decide)
      (by decide) (by decide) (by decide) (by decide) (by decide) (by decide)).1 rfl
    refine ⟨h.1, ?_⟩
    rw [h.2]
    simp
  · exact (c2_dedup_identifier c2v1 c2v3
      ("IC501", "IC", "Gent", "Brugge", 5) ("IC501", "P", "Gent", "Brugge", 5)
      (by decide) (by decide) 10 ("r1") ("t1") ⟨[], [], 0, 0⟩
      ⟨some 3, some ("V1"), .response ⟨200, .valid c2v1⟩⟩
      ⟨some 4, some ("V3"), .response ⟨200, .valid c2v3⟩⟩
      (process_vehicle_stops ("r1") ("t1") c2v1 10).2
      (by decide) (by decide) (by decide) (by decide)
      (by decide) (by decide) (by decide) (by decide) (by decide) (by decide)).2
      (by right; left; refine ⟨rfl, by decide, rfl, rfl, rfl⟩)

theorem tripsLoop_error (now : Int) (connsOf : String → String → Option (List Conn))
    (routeId longName : String) (st : CState) (trips' : List Trip)
    (htrips : trips' ≠ []) (hlen : 3 ≤ (pySplit longName ("--")).length) :
    tripsLoop now connsOf routeId longName st trips' = .error .unpackError := by
  cases trips' with
  | nil => exact absurd rfl htrips
  | cons t rest =>
    unfold tripsLoop
    rw [if_pos (show 2 ≤ (pySplit longName ("--")).length by omega)]
    cases hp : pySplit longName ("--") with
    | nil => rw [hp] at hlen; simp at hlen
    | cons a l1 =>
      cases l1 with
      | nil => rw [hp] at hlen; simp at hlen
      | cons b l2 =>
        cases l2 with
        | nil => rw [hp] at hlen; simp at hlen
        | cons cc l3 =>
          rfl

theorem routesLoop_error (now : Int) (connsOf : String → String → Option (List Conn))
    (trips : List Trip) :
    ∀ (routesL : List Route) (st : CState),
      (∃ r ∈ routesL, 3 ≤ (pySplit r.route_long_name ("--")).length ∧
        trips.filter (fun t => t.route_id == r.route_id) ≠ []) →
      routesLoop now connsOf trips st routesL = .error .unpackError := by
  intro routesL
  induction routesL with
  | nil =>
    intro st h
    simp at h
  | cons r0 rest ih =>
    intro st h
    obtain ⟨r, hr, hlen, hne⟩ := h
    unfold routesLoop
    rcases List.mem_cons.mp hr with heq | hmem
    · subst heq
      rw [tripsLoop_error now connsOf r.route_id r.route_long_name st _ hne hlen]
    · cases htl : tripsLoop now connsOf r0.route_id r0.route_long_name st
          (trips.filter (fun t => t.route_id == r0.route_id)) with
      | error e => cases e; rfl
      | ok st' => exact ih st' ⟨r, hmem, hlen, hne⟩

/-- C9: if some train route (`route_type = 100`) that has at least one trip
has a display name in which the delimiter `--` occurs two or more times
(equivalently: splitting on `--` yields at least three parts), the
two-element unpacking on lines 323-326 raises `ValueError`; nothing inside
`collect_data` catches it, so the whole collection run aborts with the
error instead of skipping that route, and the `__main__` handler ends the
program with no result. -/
theorem c9_unpack_abort (routes : List Route) (trips : List Trip)
    (connsOf : String → String → Option (List Conn)) (now : Int) (r : Route) (tr : Trip)
    (hr : r ∈ routes) (htype : r.route_type = 100)
    (hname : 3 ≤ (pySplit r.route_long_name ("--")).length)
    (htr : tr ∈ trips) (htrid : tr.route_id = r.route_id) :
    collect_data routes trips connsOf now = .error .unpackError ∧
    main_result routes trips connsOf now = none := by
  have hfilter : r ∈ routes.filter (fun x => x.route_type == 100) :=
    List.mem_filter.mpr ⟨hr, by simp [htype]⟩
  have hne : trips.filter (fun t => t.route_id == r.route_id) ≠ [] := by
    have hmem : tr ∈ trips.filter (fun t => t.route_id == r.route_id) :=
      List.mem_filter.mpr ⟨htr, by simp [htrid]⟩
    intro hnil
    rw [hnil] at hmem
    simp at hmem
  have hcd : collect_data routes trips connsOf now = .error .unpackError :=
    routesLoop_error now connsOf trips _ _ ⟨r, hfilter, hname, hne⟩
  refine ⟨hcd, ?_⟩
  rw [main_result, hcd]

/-- C9 witness: the route name `A--B--C` splits into three parts and aborts
the run. -/
theorem c9_unpack_abort_witness :
    collect_data [⟨"R1", 100, "A--B--C"⟩] [⟨"R1", "T1"⟩] (fun _ _ => none) 0
      = .error .unpackError ∧
    main_result [⟨"R1", 100, "A--B--C"⟩] [⟨"R1", "T1"⟩] (fun _ _ => none) 0 = none := by
  exact c9_unpack_abort [⟨"R1", 100, "A--B--C"⟩] [⟨"R1", "T1"⟩] (fun _ _ => none) 0
    ⟨"R1", 100, "A--B--C"⟩ ⟨"R1", "T1"⟩
    (by decide) rfl (by decide) (by decide) rfl

/-- C10: the loop treats a failed identifier (`journey_id = None`) like any
other value: if identifier generation fails for a vehicle and its stops are
nonetheless written successfully, `None` is added to the processed-journeys
set (line 354); from then on every vehicle whose identifier generation fails
is skipped as a counted duplicate (line 347) without being written — here the
second such vehicle only bumps the duplicate counter. -/
theorem c10_none_identifier (now : Int) (routeId tripId : String) (st : CState)
    (c1 c2 : Conn) (vd1 vd2 : VehicleData) (rows1 : List Row)
    (h1 : c1.time.getD 0 < now) (h2 : c1.vehicle.getD ("") ≠ "")
    (h3 : fetch_vehicle_data c1.fetch = some vd1) (h4 : vd1.truthy = true)
    (hgen1 : generate_journey_identifier vd1 = none)
    (hnone : (none : Option String) ∉ st.processed)
    (hok : process_vehicle_stops routeId tripId vd1 now = (true, rows1))
    (g1 : c2.time.getD 0 < now) (g2 : c2.vehicle.getD ("") ≠ "")
    (g3 : fetch_vehicle_data c2.fetch = some vd2) (g4 : vd2.truthy = true)
    (hgen2 : generate_journey_identifier vd2 = none) :
    (connStep now routeId tripId st c1).processed = none :: st.processed ∧
    processConns now routeId tripId st [c1, c2]
      = { st with
          processed := none :: st.processed
          written := st.written ++ rows1
          totalProcessed := st.totalProcessed + 1
          dupSkipped := st.dupSkipped + 1 } := by
  have hstep1 := connStep_processed_case now routeId tripId st c1 vd1 rows1 h1 h2 h3 h4
    (by rw [hgen1]; exact hnone) hok
  rw [hgen1] at hstep1
  constructor
  · rw [hstep1]
  · simp only [processConns, List.foldl]
    rw [hstep1]
    rw [connStep_dup_case now routeId tripId _ c2 vd2 g1 g2 g3 g4
      (by rw [hgen2]; exact List.mem_cons_self _ _)]

/-- C10 witness vehicle whose identifier generation fails while its write
succeeds: the final stop's station name is unencodable (a lone surrogate),
so `journey_string.encode()` raises and the identifier is `None`; but that
stop has no scheduled departure, so it is filtered out of `past_stops` and
never written — the write completes. -/
def c10v1 : VehicleData :=
  { isDict := true, truthy := true, stopsIsDict := true,
    vehicleinfo := ⟨⟨"BE.NMBS.IC7", true⟩, ⟨"IC", true⟩⟩,
    stop := [{ station := ⟨"Brussels", true⟩, scheduledDepartureTime := some 5 },
             { station := ⟨"Liege", false⟩ }] }

/-- Second C10 witness vehicle with failing identifier generation (empty
stop list). -/
def c10v2 : VehicleData :=
  { isDict := true, truthy := true, stopsIsDict := true,
    vehicleinfo := ⟨⟨"BE.NMBS.IC8", true⟩, ⟨"IC", true⟩⟩, stop := [] }

/-- C10 witness: the first gen-failing vehicle is written and records `none`;
the second gen-failing vehicle is then skipped as a duplicate. -/
theorem c10_none_identifier_witness :
    generate_journey_identifier c10v1 = none ∧
    (process_vehicle_stops ("r1") ("t1") c10v1 10).1 = true ∧
    processConns 10 ("r1") ("t1") ⟨[], [], 0, 0⟩
        [⟨some 3, some ("V1"), .response ⟨200, .valid c10v1⟩⟩,
          ⟨some 4, some ("V2"), .response ⟨200, .valid c10v2⟩⟩]
      = { processed := [none]
          written := (process_vehicle_stops ("r1") ("t1") c10v1 10).2
          totalProcessed := 1
          dupSkipped := 1 } := by
  have h := c10_none_identifier 10 ("r1") ("t1") ⟨[], [], 0, 0⟩
    ⟨some 3, some ("V1"), .response ⟨200, .valid c10v1⟩⟩
    ⟨some 4, some ("V2"), .response ⟨200, .valid c10v2⟩⟩
    c10v1 c10v2 (process_vehicle_stops ("r1") ("t1") c10v1 10).2
    (by decide) (by decide) (by decide) (by decide) (by decide) (by decide) (by decide)
    (by decide) (by decide) (by decide) (by decide) (by decide)
  refine ⟨by decide, by decide, ?_⟩
  rw [h.2]
  simp
